import Mathlib

/-!
Verification of the ComfyUI-CairoSVG core: a shallow embedding of
src/svgutils.py (upscale_with_vectorization) and of the external-process
layer in src/install.py (handle_stream, process_wrap).

External collaborators (PIL, the potrace executable, cairosvg, the OS
filesystem and PATH lookup) are modelled as explicit oracle fields of an
environment record; the Python function bodies themselves are translated
statement by statement.  The filesystem is an association list from paths
to byte contents; PIL image objects live on an explicit heap so that
object identity and in-place mutation (the load call) are observable.
-/

/-- Pixel formats of a PIL image relevant to the pipeline.  The data model
requires at least RGB and RGBA; L is single-channel grayscale. -/
inductive Mode where
  | RGB : Mode
  | RGBA : Mode
  | L : Mode
deriving DecidableEq

/-- True exactly for the pixel formats carrying an alpha channel. -/
def Mode.hasAlpha : Mode → Bool
  | Mode.RGBA => true
  | _ => false

/-- A PIL image: pixel format, size, row-major pixel buffer (one channel
list per pixel) and a flag recording whether lazy loading has completed. -/
structure PImage where
  mode : Mode
  width : Nat
  height : Nat
  px : List (List Nat)
  loaded : Bool
deriving DecidableEq

abbrev FPath := String

abbrev Bytes := List Nat

/-- The filesystem: an association list from paths to file contents. -/
abbrev FS := List (FPath × Bytes)

/-- Models os.path.exists. -/
def fsHas (fs : FS) (p : FPath) : Bool :=
  fs.any (fun f => f.1 == p)

/-- Models creating or overwriting the file at path p with contents b. -/
def fsWrite (fs : FS) (p : FPath) (b : Bytes) : FS :=
  (p, b) :: fs.filter (fun f => !(f.1 == p))

/-- Models opening a file for reading: none when the path is absent. -/
def fsRead (fs : FS) (p : FPath) : Option Bytes :=
  Option.map (fun f => f.2) (fs.find? (fun f => f.1 == p))

/-- Models a successful os.remove of path p. -/
def fsErase (fs : FS) (p : FPath) : FS :=
  fs.filter (fun f => !(f.1 == p))

/-- Models PIL Image.new with mode RGBA, the given size and an opaque
white fill, as built on line 59 of svgutils.py. -/
def whiteBackground (w h : Nat) : PImage :=
  { mode := Mode.RGBA, width := w, height := h,
    px := List.replicate (w * h) [255, 255, 255, 255], loaded := true }

/-- Models the per-pixel Porter-Duff over operator of PIL
Image.alpha_composite on straight-alpha 8-bit RGBA pixels: the second
pixel (foreground) is composited over the first (background). -/
def compositePixel (bg fg : List Nat) : List Nat :=
  match bg, fg with
  | [rb, gb, bb, ab], [rf, gf, bf, af] =>
    let a2 := ab * (255 - af) / 255
    let outA := af + a2
    if outA = 0 then [0, 0, 0, 0]
    else [(rf * af + rb * a2) / outA, (gf * af + gb * a2) / outA,
          (bf * af + bb * a2) / outA, outA]
  | _, _ => fg

/-- Models PIL Image.alpha_composite(im1, im2): im2 over im1, both RGBA
of the same size; the result is a freshly built RGBA image. -/
def alpha_composite (bg fg : PImage) : PImage :=
  { mode := Mode.RGBA, width := bg.width, height := bg.height,
    px := List.zipWith compositePixel bg.px fg.px, loaded := true }

/-- Channel conversion used by PIL convert("RGB"): RGBA drops the alpha
channel, L replicates the gray value, RGB is unchanged. -/
def pixelToRGB : Mode → List Nat → List Nat
  | Mode.RGBA, p => p.take 3
  | Mode.RGB, p => p
  | Mode.L, p =>
    match p with
    | [v] => [v, v, v]
    | q => q

/-- Models PIL convert("RGB"); conversion materialises the pixel data, so
the result counts as loaded. -/
def convertRGB (img : PImage) : PImage :=
  { mode := Mode.RGB, width := img.width, height := img.height,
    px := img.px.map (pixelToRGB img.mode), loaded := true }

/-- Channel conversion used by PIL convert("RGBA"): RGB and L gain an
opaque alpha channel, RGBA is unchanged. -/
def pixelToRGBA : Mode → List Nat → List Nat
  | Mode.RGBA, p => p
  | Mode.RGB, p => p ++ [255]
  | Mode.L, p =>
    match p with
    | [v] => [v, v, v, 255]
    | q => q

/-- Models PIL convert("RGBA"); conversion materialises the pixel data,
so the result counts as loaded. -/
def convertRGBA (img : PImage) : PImage :=
  { mode := Mode.RGBA, width := img.width, height := img.height,
    px := img.px.map (pixelToRGBA img.mode), loaded := true }

/-- Placeholder image returned when a heap index is out of range; the
Python caller always passes a live object, so theorems about the input
image quantify over heap contents directly. -/
def dfltImg : PImage :=
  { mode := Mode.RGB, width := 0, height := 0, px := [], loaded := true }

/-- Step 1 of upscale_with_vectorization (svgutils.py lines 57-60): if
the input mode is RGBA, composite it over an opaque white background and
convert the fresh result to RGB; the local variable is rebound, the
original object is untouched. -/
def normalizeInput (img : PImage) : PImage :=
  if img.mode = Mode.RGBA then
    convertRGB (alpha_composite (whiteBackground img.width img.height) img)
  else img

/-- Command construction of svgutils.py lines 84-87: the base command is
potrace, input path, the -s flag, -o and the output path; a non-empty
extra argument list is spliced in right after the tool name (the Python
slice assignment command[1:1] = potrace_args, guarded by truthiness, so
None and the empty list both leave the command unchanged). -/
def mkCommand (bmp_file_path svg_file_path : FPath) (potrace_args : Option (List String)) : List String :=
  let command := ["potrace", bmp_file_path, "-s", "-o", svg_file_path]
  match potrace_args with
  | none => command
  | some args =>
    if args.isEmpty then command
    else command.take 1 ++ args ++ command.drop 1

/-- Error constructors, one per raise site of upscale_with_vectorization.
potraceFailed carries result.stderr, which line 91 embeds verbatim in the
RuntimeError message.  bmpWriteFailed stands for an OSError raised by the
write on line 75, which happens before the try block and so propagates
without any cleanup. -/
inductive PipelineError where
  | potraceNotFound : PipelineError
  | bmpConvertFailed : PipelineError
  | bmpWriteFailed : PipelineError
  | potraceFailed : String → PipelineError
  | svgReadFailed : PipelineError
  | cairosvgFailed : PipelineError
  | pngOpenFailed : PipelineError
deriving DecidableEq

/-- Oracles for everything outside the Python function: the PATH lookup
shutil.which, the PIL BMP encoder, the names handed out by the tempfile
module, success of the write to the BMP temp file, the behaviour of the
potrace executable (exit code, stderr text and its effect on the
filesystem, each a function of the command line and the filesystem at
launch), cairosvg.svg2png, the PIL PNG decoder (open plus load), and
whether os.remove succeeds on a given path. -/
structure Env where
  potraceFound : Bool
  bmpEncode : PImage → Option Bytes
  bmpName : FPath
  bmpWriteOk : Bool
  svgName : FPath
  potraceCode : List String → FS → Int
  potraceStderr : List String → FS → String
  potraceFS : List String → FS → FS
  svg2png : Bytes → Rat → Option Nat → Option Nat → Option Bytes
  pngDecode : Bytes → Option PImage
  removeOk : FPath → Bool

/-- One recorded call to cairosvg.svg2png: the sizing arguments the
pipeline passed on svgutils.py lines 104-109. -/
structure RasterizeCall where
  scale : Rat
  output_width : Option Nat
  output_height : Option Nat
deriving DecidableEq

/-- World state threaded through the pipeline: the filesystem, a heap of
PIL image objects (the caller refers to its image by heap index), and
ghost traces recording each potrace invocation, each cairosvg call and
each image handed to the BMP encoder. -/
structure St where
  fs : FS
  heap : List PImage
  potraceCalls : List (List String)
  svg2pngCalls : List RasterizeCall
  bmpEncodeCalls : List PImage
deriving DecidableEq

/-- One arm of the finally block (svgutils.py lines 130-134 and 136-140):
if the path exists, attempt os.remove; an OSError from the remove is
swallowed, leaving the file in place. -/
def removeQuiet (e : Env) (fs : FS) (p : FPath) : FS :=
  if fsHas fs p then (if e.removeOk p then fsErase fs p else fs) else fs

/-- The finally block of svgutils.py lines 128-140: best-effort removal
of the BMP temp file and, when it was assigned, the SVG temp file. -/
def cleanupTemps (e : Env) (bmp : FPath) (svg : Option FPath) (fs : FS) : FS :=
  let fs1 := removeQuiet e fs bmp
  match svg with
  | some p => removeQuiet e fs1 p
  | none => fs1

/-- Body of the try block, svgutils.py lines 80-124.  Step 4: mkstemp
creates the empty SVG temp file and the command is built and run; the
exit code and stderr are functions of the filesystem at launch, and the
tool may rewrite the filesystem.  A non-zero exit raises with the
captured stderr.  Step 5 reads the SVG temp file.  Step 6 calls
cairosvg.svg2png with the svg bytes, scale, output_width and
output_height.  Step 7 opens the PNG bytes as a fresh heap object,
forces its lazy load in place, and returns a freshly allocated RGBA
conversion of it. -/
def tryBody (e : Env) (s : St) (potrace_args : Option (List String)) (scale : Rat)
    (output_width output_height : Option Nat) : Except PipelineError Nat × St :=
  let s1 : St := { s with fs := fsWrite s.fs e.svgName [] }
  let command := mkCommand e.bmpName e.svgName potrace_args
  let rc := e.potraceCode command s1.fs
  let s2 : St := { s1 with
    potraceCalls := s1.potraceCalls ++ [command],
    fs := e.potraceFS command s1.fs }
  if rc = 0 then
    match fsRead s2.fs e.svgName with
    | none => (Except.error PipelineError.svgReadFailed, s2)
    | some svg_data =>
      let s3 : St := { s2 with svg2pngCalls :=
        s2.svg2pngCalls ++ [{ scale := scale, output_width := output_width,
                              output_height := output_height }] }
      match e.svg2png svg_data scale output_width output_height with
      | none => (Except.error PipelineError.cairosvgFailed, s3)
      | some png_bytes =>
        match e.pngDecode png_bytes with
        | none => (Except.error PipelineError.pngOpenFailed, s3)
        | some output_image =>
          let loaded_image : PImage := { output_image with loaded := true }
          let s4 : St := { s3 with heap :=
            (s3.heap ++ [output_image]).set s3.heap.length loaded_image }
          let s5 : St := { s4 with heap := s4.heap ++ [convertRGBA loaded_image] }
          (Except.ok s4.heap.length, s5)
  else
    (Except.error (PipelineError.potraceFailed (e.potraceStderr command s1.fs)), s2)

/-- The try-finally of svgutils.py lines 79-140: whatever the try body
produced, the finally block runs the best-effort cleanup of both temp
files on the resulting filesystem. -/
def tryWithCleanup (e : Env) (s : St) (potrace_args : Option (List String)) (scale : Rat)
    (output_width output_height : Option Nat) : Except PipelineError Nat × St :=
  let r := tryBody e s potrace_args scale output_width output_height
  (r.1, { r.2 with fs := cleanupTemps e e.bmpName (some e.svgName) r.2.fs })

/-- Steps 3 onward, svgutils.py lines 71-140.  NamedTemporaryFile with
delete=False creates the BMP temp file; the write of the BMP bytes into
it happens before the try block, so a failing write leaves the created
file behind and propagates with no cleanup.  On success the try-finally
runs. -/
def afterEncode (e : Env) (s : St) (bmp_data : Bytes) (potrace_args : Option (List String))
    (scale : Rat) (output_width output_height : Option Nat) : Except PipelineError Nat × St :=
  if e.bmpWriteOk then
    tryWithCleanup e { s with fs := fsWrite s.fs e.bmpName bmp_data }
      potrace_args scale output_width output_height
  else
    (Except.error PipelineError.bmpWriteFailed, { s with fs := fsWrite s.fs e.bmpName [] })

/-- Embedding of upscale_with_vectorization, svgutils.py lines 19-140.
Step 0 (lines 50-55): if shutil.which does not resolve potrace, raise at
once, before any other work.  Step 1 (lines 57-60): alpha normalization
of the input image read from the heap.  Step 2 (lines 62-69): in-memory
BMP encoding, which may fail.  The remaining steps are in afterEncode.
The Python defaults are potrace_args=None, scale=1.0,
output_width=None, output_height=None. -/
def upscale_with_vectorization (e : Env) (s0 : St) (imgId : Nat)
    (potrace_args : Option (List String)) (scale : Rat)
    (output_width output_height : Option Nat) : Except PipelineError Nat × St :=
  if e.potraceFound then
    match e.bmpEncode (normalizeInput (s0.heap.getD imgId dfltImg)) with
    | none =>
      (Except.error PipelineError.bmpConvertFailed,
       { s0 with bmpEncodeCalls :=
          s0.bmpEncodeCalls ++ [normalizeInput (s0.heap.getD imgId dfltImg)] })
    | some bmp_data =>
      afterEncode e
        { s0 with bmpEncodeCalls :=
           s0.bmpEncodeCalls ++ [normalizeInput (s0.heap.getD imgId dfltImg)] }
        bmp_data potrace_args scale output_width output_height
  else
    (Except.error PipelineError.potraceNotFound, s0)

/-- The scale default declared in the Python signature (line 24). -/
def defaultScale : Rat := 1

/-- The output_width default declared in the Python signature (line 25). -/
def defaultOutputWidth : Option Nat := none

/-- The output_height default declared in the Python signature (line 26). -/
def defaultOutputHeight : Option Nat := none

/-- Destination streams of the process wrapper in install.py. -/
inductive Sink where
  | stdout : Sink
  | stderr : Sink
deriving DecidableEq

/-- Embedding of handle_stream, install.py lines 7-14: iterate over the
whole stream (a list of text lines, i.e. everything the child produces on
that stream up to end-of-input) and forward each line unchanged to the
callers stdout or stderr according to the is_stdout flag. -/
def handle_stream (stream : List String) (is_stdout : Bool) : List (Sink × String) :=
  stream.map (fun msg => (if is_stdout then Sink.stdout else Sink.stderr, msg))

/-- A child process as the wrapper observes it: everything it writes to
each of its two output streams before closing them, and its exit code. -/
structure ChildProcess where
  stdoutLines : List String
  stderrLines : List String
  exitCode : Int

/-- Scheduling events of process_wrap, install.py lines 22-31: the two
reader threads are started, then both are joined, then the process is
waited on and its exit code returned. -/
inductive ThreadEvent where
  | start : Bool → ThreadEvent
  | join : Bool → ThreadEvent
  | waitReturn : ThreadEvent
deriving DecidableEq, BEq

/-- Result of one process_wrap call: the reported exit code, what each
reader thread emitted while draining its stream, and the ordered thread
choreography. -/
structure WrapResult where
  exitCode : Int
  stdoutEmitted : List (Sink × String)
  stderrEmitted : List (Sink × String)
  events : List ThreadEvent

/-- Embedding of process_wrap, install.py lines 16-31.  A None handler is
replaced by handle_stream (lines 19-20).  One thread runs the handler on
the stdout stream with is_stdout true, a second runs it on the stderr
stream with is_stdout false; each handler call consumes its entire
stream.  The events field records the choreography literally: both
threads are started, then both are joined, and only then does
process.wait() produce the returned exit code. -/
def process_wrap (p : ChildProcess)
    (handler : Option (List String → Bool → List (Sink × String))) : WrapResult :=
  let h := match handler with
    | none => handle_stream
    | some f => f
  { exitCode := p.exitCode,
    stdoutEmitted := h p.stdoutLines true,
    stderrEmitted := h p.stderrLines false,
    events := [ThreadEvent.start true, ThreadEvent.start false,
               ThreadEvent.join true, ThreadEvent.join false,
               ThreadEvent.waitReturn] }

/-- Concrete 1 by 1 RGBA input image with one semi-transparent pixel. -/
def imgRGBA : PImage :=
  { mode := Mode.RGBA, width := 1, height := 1, px := [[10, 20, 30, 128]], loaded := true }

/-- Concrete initial world: empty filesystem and the caller image on the
heap at index 0. -/
def st0 : St :=
  { fs := [], heap := [imgRGBA], potraceCalls := [], svg2pngCalls := [], bmpEncodeCalls := [] }

/-- Concrete environment in which every stage succeeds. -/
def envOk : Env :=
  { potraceFound := true,
    bmpEncode := fun _ => some [7],
    bmpName := "in.bmp",
    bmpWriteOk := true,
    svgName := "out.svg",
    potraceCode := fun _ _ => 0,
    potraceStderr := fun _ _ => "",
    potraceFS := fun _ fs => fs,
    svg2png := fun _ _ _ _ => some [9],
    pngDecode := fun _ =>
      some { mode := Mode.RGB, width := 2, height := 1,
             px := [[1, 2, 3], [4, 5, 6]], loaded := false },
    removeOk := fun _ => true }

/-- Environment where the write of the BMP bytes to the temp file fails. -/
def envWriteFail : Env := { envOk with bmpWriteOk := false }

/-- Environment where potrace is not on the search path. -/
def envNoPotrace : Env := { envOk with potraceFound := false }

/-- Environment where potrace exits with status 1 and diagnostic text. -/
def envPotraceFail : Env :=
  { envOk with potraceCode := fun _ _ => 1, potraceStderr := fun _ _ => "trace boom" }

theorem fsHas_filter (fs : FS) (p : FPath) (q : FPath × Bytes → Bool)
    (h : fsHas fs p = false) : fsHas (fs.filter q) p = false := by
  induction fs with
  | nil => rfl
  | cons f t ih =>
    simp only [fsHas, List.any_cons, Bool.or_eq_false_iff] at h
    simp only [List.filter]
    cases hq : q f
    · exact ih h.2
    · simp only [fsHas, List.any_cons, Bool.or_eq_false_iff]
      exact ⟨h.1, ih h.2⟩

theorem fsHas_fsErase_self (fs : FS) (p : FPath) : fsHas (fsErase fs p) p = false := by
  induction fs with
  | nil => rfl
  | cons f t ih =>
    simp only [fsErase, List.filter]
    cases hq : f.1 == p
    · simp only [Bool.not_false]
      simp only [fsHas, List.any_cons, Bool.or_eq_false_iff]
      exact ⟨hq, ih⟩
    · simpa only [Bool.not_true] using ih

theorem fsHas_fsErase (fs : FS) (p q : FPath) (h : fsHas fs p = false) :
    fsHas (fsErase fs q) p = false :=
  fsHas_filter fs p _ h

theorem removeQuiet_self (e : Env) (fs : FS) (p : FPath) (h : e.removeOk p = true) :
    fsHas (removeQuiet e fs p) p = false := by
  unfold removeQuiet
  cases hf : fsHas fs p
  · simp [hf]
  · simp [hf, h, fsHas_fsErase_self]

theorem removeQuiet_absent (e : Env) (fs : FS) (p q : FPath) (h : fsHas fs p = false) :
    fsHas (removeQuiet e fs q) p = false := by
  unfold removeQuiet
  cases hf : fsHas fs q
  · simp [hf, h]
  · cases hr : e.removeOk q
    · simpa [hf, hr]
    · simp only [hf, hr, if_true]
      exact fsHas_fsErase fs p q h

theorem cleanupTemps_clears (e : Env) (bmp svg : FPath) (fs : FS)
    (hb : e.removeOk bmp = true) (hs : e.removeOk svg = true) :
    fsHas (cleanupTemps e bmp (some svg) fs) bmp = false ∧
    fsHas (cleanupTemps e bmp (some svg) fs) svg = false := by
  unfold cleanupTemps
  exact ⟨removeQuiet_absent e _ bmp svg (removeQuiet_self e fs bmp hb),
         removeQuiet_self e _ svg hs⟩

theorem tryBody_bmpEncodeCalls (e : Env) (s : St) (a : Option (List String)) (sc : Rat)
    (ow oh : Option Nat) :
    (tryBody e s a sc ow oh).2.bmpEncodeCalls = s.bmpEncodeCalls := by
  unfold tryBody
  dsimp only
  split
  · split
    · rfl
    · split
      · rfl
      · split
        · rfl
        · rfl
  · rfl

theorem tryBody_potraceCalls (e : Env) (s : St) (a : Option (List String)) (sc : Rat)
    (ow oh : Option Nat) :
    (tryBody e s a sc ow oh).2.potraceCalls =
      s.potraceCalls ++ [mkCommand e.bmpName e.svgName a] := by
  unfold tryBody
  dsimp only
  split
  · split
    · rfl
    · split
      · rfl
      · split
        · rfl
        · rfl
  · rfl

theorem tryBody_heap_frame (e : Env) (s : St) (a : Option (List String)) (sc : Rat)
    (ow oh : Option Nat) (i : Nat) (hi : i < s.heap.length) :
    (tryBody e s a sc ow oh).2.heap[i]? = s.heap[i]? := by
  unfold tryBody
  dsimp only
  split
  · split
    · rfl
    · split
      · rfl
      · split
        · rfl
        · dsimp only
          rw [List.getElem?_append]
          rw [if_pos (by simp; omega)]
          rw [List.getElem?_set_ne (by omega)]
          rw [List.getElem?_append]
          rw [if_pos hi]
  · rfl

/-- Claim C3: if the tracer executable cannot be resolved on the search
path, the pipeline fails immediately with the tool-not-found error and
the whole world state, filesystem included, is returned unchanged: no
temporary file is created and no other work is performed. -/
theorem c3_tool_not_found_is_immediate (e : Env) (s0 : St) (imgId : Nat)
    (potrace_args : Option (List String)) (scale : Rat) (ow oh : Option Nat)
    (h : e.potraceFound = false) :
    upscale_with_vectorization e s0 imgId potrace_args scale ow oh =
      (Except.error PipelineError.potraceNotFound, s0) := by
  unfold upscale_with_vectorization
  simp [h]

/-- Witness for C3 at a concrete environment with potrace absent. -/
theorem c3_tool_not_found_is_immediate_witness :
    envNoPotrace.potraceFound = false ∧
    upscale_with_vectorization envNoPotrace st0 0 none 1 none none =
      (Except.error PipelineError.potraceNotFound, st0) :=
  ⟨rfl, c3_tool_not_found_is_immediate envNoPotrace st0 0 none 1 none none rfl⟩

/-- Claim C7: when the caller supplies a non-empty list of extra tracer
arguments and the pipeline reaches the tracer invocation, the command
line recorded for the tracer is the tool name, then the extra arguments
in order, then the input temp path, the -s flag, and -o with the output
temp path. -/
theorem c7_extra_args_after_tool_name (e : Env) (s0 : St) (imgId : Nat)
    (args : List String) (scale : Rat) (ow oh : Option Nat) (bmp_data : Bytes)
    (hFound : e.potraceFound = true)
    (hEnc : e.bmpEncode (normalizeInput (s0.heap.getD imgId dfltImg)) = some bmp_data)
    (hW : e.bmpWriteOk = true)
    (hne : args ≠ []) :
    (upscale_with_vectorization e s0 imgId (some args) scale ow oh).2.potraceCalls =
      s0.potraceCalls ++ [["potrace"] ++ args ++ [e.bmpName, "-s", "-o", e.svgName]] := by
  unfold upscale_with_vectorization
  simp only [hFound, hEnc, if_true]
  unfold afterEncode
  simp only [hW, if_true]
  unfold tryWithCleanup
  dsimp only
  rw [tryBody_potraceCalls]
  dsimp only
  congr 1
  simp [mkCommand, hne]

/-- Witness for C7: a concrete successful run with two extra arguments
records exactly the expected tracer command line. -/
theorem c7_extra_args_after_tool_name_witness :
    envOk.potraceFound = true ∧
    envOk.bmpEncode (normalizeInput (st0.heap.getD 0 dfltImg)) = some [7] ∧
    envOk.bmpWriteOk = true ∧
    (["-t", "5"] : List String) ≠ [] ∧
    (upscale_with_vectorization envOk st0 0 (some ["-t", "5"]) 2 none none).2.potraceCalls =
      [["potrace", "-t", "5", "in.bmp", "-s", "-o", "out.svg"]] :=
  ⟨rfl, rfl, rfl, by simp, by
    have h := c7_extra_args_after_tool_name envOk st0 0 ["-t", "5"] 2 none none [7]
      rfl rfl rfl (by simp)
    simpa using h⟩

/-- Claim C4: when the stages before the tracer succeed, a non-zero
tracer exit status makes the pipeline fail with the potrace error
carrying, verbatim, the stderr text the child produced for that command
and filesystem, while a zero exit status never produces that error. -/
theorem c4_nonzero_exit_carries_stderr (e : Env) (s0 : St) (imgId : Nat)
    (potrace_args : Option (List String)) (scale : Rat) (ow oh : Option Nat) (bmp_data : Bytes)
    (hFound : e.potraceFound = true)
    (hEnc : e.bmpEncode (normalizeInput (s0.heap.getD imgId dfltImg)) = some bmp_data)
    (hW : e.bmpWriteOk = true) :
    (e.potraceCode (mkCommand e.bmpName e.svgName potrace_args)
        (fsWrite (fsWrite s0.fs e.bmpName bmp_data) e.svgName []) ≠ 0 →
      (upscale_with_vectorization e s0 imgId potrace_args scale ow oh).1 =
        Except.error (PipelineError.potraceFailed
          (e.potraceStderr (mkCommand e.bmpName e.svgName potrace_args)
            (fsWrite (fsWrite s0.fs e.bmpName bmp_data) e.svgName [])))) ∧
    (e.potraceCode (mkCommand e.bmpName e.svgName potrace_args)
        (fsWrite (fsWrite s0.fs e.bmpName bmp_data) e.svgName []) = 0 →
      ∀ msg, (upscale_with_vectorization e s0 imgId potrace_args scale ow oh).1 ≠
        Except.error (PipelineError.potraceFailed msg)) := by
  unfold upscale_with_vectorization
  simp only [hFound, hEnc, if_true]
  unfold afterEncode
  simp only [hW, if_true]
  unfold tryWithCleanup
  dsimp only
  unfold tryBody
  dsimp only
  constructor
  · intro hrc
    rw [if_neg hrc]
  · intro hrc msg
    rw [if_pos hrc]
    split
    · simp
    · split
      · simp
      · split
        · simp
        · simp

/-- Witness for C4: with a tracer exiting 1 and stderr text, the
pipeline fails with exactly that captured text. -/
theorem c4_nonzero_exit_carries_stderr_witness :
    envPotraceFail.potraceFound = true ∧
    envPotraceFail.bmpEncode (normalizeInput (st0.heap.getD 0 dfltImg)) = some [7] ∧
    envPotraceFail.bmpWriteOk = true ∧
    envPotraceFail.potraceCode (mkCommand envPotraceFail.bmpName envPotraceFail.svgName none)
      (fsWrite (fsWrite st0.fs envPotraceFail.bmpName [7]) envPotraceFail.svgName []) ≠ 0 ∧
    (upscale_with_vectorization envPotraceFail st0 0 none 1 none none).1 =
      Except.error (PipelineError.potraceFailed "trace boom") :=
  ⟨rfl, rfl, rfl, by decide,
    (c4_nonzero_exit_carries_stderr envPotraceFail st0 0 none 1 none none [7]
      rfl rfl rfl).1 (by decide)⟩

/-- Claim C5: for an input whose pixel format has an alpha channel, the
image handed to the BMP encoder is exactly the input composited over an
opaque white background and converted to RGB, and that image carries no
alpha channel: no raw alpha reaches the bitmap encoding, and alpha is
removed by compositing, not by dropping the channel. -/
theorem c5_alpha_input_composited_over_white (e : Env) (s0 : St) (imgId : Nat)
    (potrace_args : Option (List String)) (scale : Rat) (ow oh : Option Nat)
    (hFound : e.potraceFound = true)
    (hAlpha : (s0.heap.getD imgId dfltImg).mode.hasAlpha = true) :
    (upscale_with_vectorization e s0 imgId potrace_args scale ow oh).2.bmpEncodeCalls =
      s0.bmpEncodeCalls ++
        [convertRGB (alpha_composite
          (whiteBackground (s0.heap.getD imgId dfltImg).width
            (s0.heap.getD imgId dfltImg).height)
          (s0.heap.getD imgId dfltImg))] ∧
    (convertRGB (alpha_composite
        (whiteBackground (s0.heap.getD imgId dfltImg).width
          (s0.heap.getD imgId dfltImg).height)
        (s0.heap.getD imgId dfltImg))).mode.hasAlpha = false := by
  have hm : (s0.heap.getD imgId dfltImg).mode = Mode.RGBA := by
    cases h : (s0.heap.getD imgId dfltImg).mode
    · rw [h] at hAlpha; exact absurd hAlpha (by decide)
    · rfl
    · rw [h] at hAlpha; exact absurd hAlpha (by decide)
  refine ⟨?_, rfl⟩
  unfold upscale_with_vectorization
  simp only [hFound, if_true]
  have hn : normalizeInput (s0.heap.getD imgId dfltImg) =
      convertRGB (alpha_composite
        (whiteBackground (s0.heap.getD imgId dfltImg).width
          (s0.heap.getD imgId dfltImg).height)
        (s0.heap.getD imgId dfltImg)) := by
    unfold normalizeInput
    rw [if_pos hm]
  rw [hn]
  split
  · rfl
  · unfold afterEncode
    split
    · unfold tryWithCleanup
      dsimp only
      rw [tryBody_bmpEncodeCalls]
    · rfl

/-- Witness for C5: the concrete semi-transparent RGBA input is
composited over white before encoding. -/
theorem c5_alpha_input_composited_over_white_witness :
    envOk.potraceFound = true ∧
    (st0.heap.getD 0 dfltImg).mode.hasAlpha = true ∧
    (upscale_with_vectorization envOk st0 0 none 1 none none).2.bmpEncodeCalls =
      [convertRGB (alpha_composite (whiteBackground 1 1) imgRGBA)] ∧
    (convertRGB (alpha_composite (whiteBackground 1 1) imgRGBA)).mode.hasAlpha = false :=
  ⟨rfl, rfl,
    (c5_alpha_input_composited_over_white envOk st0 0 none 1 none none rfl rfl).1,
    (c5_alpha_input_composited_over_white envOk st0 0 none 1 none none rfl rfl).2⟩

theorem tryBody_ok_rgba (e : Env) (s : St) (a : Option (List String)) (sc : Rat)
    (ow oh : Option Nat) (retId : Nat) :
    (tryBody e s a sc ow oh).1 = Except.ok retId →
    ((tryBody e s a sc ow oh).2.heap.getD retId dfltImg).mode = Mode.RGBA ∧
    ((tryBody e s a sc ow oh).2.heap.getD retId dfltImg).loaded = true := by
  unfold tryBody
  dsimp only
  split
  · split
    · intro h; simp at h
    · split
      · intro h; simp at h
      · split
        · intro h; simp at h
        · intro h
          dsimp only at h ⊢
          simp only [Except.ok.injEq] at h
          subst h
          rw [List.getD_eq_getElem?_getD, List.getElem?_concat_length]
          exact ⟨rfl, rfl⟩
  · intro h; simp at h

/-- Claim C6: whenever the pipeline returns successfully, the returned
image object is in the alpha-capable RGBA mode and its lazy loading has
completed, for every environment, input pixel format, renderer output
and sizing. -/
theorem c6_success_returns_loaded_rgba (e : Env) (s0 : St) (imgId : Nat)
    (potrace_args : Option (List String)) (scale : Rat) (ow oh : Option Nat) (retId : Nat)
    (h : (upscale_with_vectorization e s0 imgId potrace_args scale ow oh).1 = Except.ok retId) :
    ((upscale_with_vectorization e s0 imgId potrace_args scale ow oh).2.heap.getD retId dfltImg).mode
        = Mode.RGBA ∧
    ((upscale_with_vectorization e s0 imgId potrace_args scale ow oh).2.heap.getD retId dfltImg).loaded
        = true := by
  unfold upscale_with_vectorization at h ⊢
  cases hpf : e.potraceFound
  · rw [hpf] at h
    simp at h
  · rw [hpf] at h
    simp only [eq_self_iff_true, if_true] at h ⊢
    cases henc : e.bmpEncode (normalizeInput (s0.heap.getD imgId dfltImg))
    · rw [henc] at h
      simp at h
    · rw [henc] at h
      dsimp only at h ⊢
      unfold afterEncode at h ⊢
      cases hw : e.bmpWriteOk
      · rw [hw] at h
        simp at h
      · rw [hw] at h
        simp only [eq_self_iff_true, if_true] at h ⊢
        exact tryBody_ok_rgba e _ potrace_args scale ow oh retId h

/-- Witness for C6: the concrete success run returns the image at heap
index 2, which is RGBA and loaded. -/
theorem c6_success_returns_loaded_rgba_witness :
    (upscale_with_vectorization envOk st0 0 none 1 none none).1 = Except.ok 2 ∧
    ((upscale_with_vectorization envOk st0 0 none 1 none none).2.heap.getD 2 dfltImg).mode
        = Mode.RGBA ∧
    ((upscale_with_vectorization envOk st0 0 none 1 none none).2.heap.getD 2 dfltImg).loaded
        = true :=
  ⟨rfl, (c6_success_returns_loaded_rgba envOk st0 0 none 1 none none 2 rfl).1,
    (c6_success_returns_loaded_rgba envOk st0 0 none 1 none none 2 rfl).2⟩

/-- Claim C10: the pipeline never mutates any pre-existing heap object,
in particular the caller input image: on every path, success or failure,
every heap index that existed before the call still holds exactly the
same image, with the same mode, size and pixel buffer, afterwards.  The
alpha normalization rebinds a local to a fresh composited image and the
only in-place mutation, the lazy-load force, happens on the freshly
allocated output object. -/
theorem c10_caller_image_not_mutated (e : Env) (s0 : St) (imgId : Nat)
    (potrace_args : Option (List String)) (scale : Rat) (ow oh : Option Nat)
    (i : Nat) (hi : i < s0.heap.length) :
    (upscale_with_vectorization e s0 imgId potrace_args scale ow oh).2.heap[i]? = s0.heap[i]? := by
  unfold upscale_with_vectorization
  cases hpf : e.potraceFound
  · rfl
  · simp only [eq_self_iff_true, if_true]
    cases henc : e.bmpEncode (normalizeInput (s0.heap.getD imgId dfltImg))
    · rfl
    · dsimp only
      unfold afterEncode
      cases hw : e.bmpWriteOk
      · rfl
      · simp only [eq_self_iff_true, if_true]
        unfold tryWithCleanup
        dsimp only
        exact tryBody_heap_frame e _ potrace_args scale ow oh i hi

/-- Witness for C10 at the concrete success environment and index 0. -/
theorem c10_caller_image_not_mutated_witness :
    0 < st0.heap.length ∧
    (upscale_with_vectorization envOk st0 0 none 1 none none).2.heap[0]? = st0.heap[0]? :=
  ⟨by decide, c10_caller_image_not_mutated envOk st0 0 none 1 none none 0 (by decide)⟩

/-- Claim C9: the outcome of the pipeline, and the heap holding the
returned image, are completely independent of whether the os.remove
calls of the cleanup block succeed or fail: a cleanup failure can change
only which files remain on disk, never the value or error surfaced to
the caller. -/
theorem c9_cleanup_failure_preserves_outcome (e : Env) (f : FPath → Bool) (s0 : St)
    (imgId : Nat) (potrace_args : Option (List String)) (scale : Rat) (ow oh : Option Nat) :
    (upscale_with_vectorization { e with removeOk := f } s0 imgId potrace_args scale ow oh).1 =
      (upscale_with_vectorization e s0 imgId potrace_args scale ow oh).1 ∧
    (upscale_with_vectorization { e with removeOk := f } s0 imgId potrace_args scale ow oh).2.heap =
      (upscale_with_vectorization e s0 imgId potrace_args scale ow oh).2.heap := by
  cases e with
  | mk pf be bn bw sn pc ps pfs sp pd ro =>
    unfold upscale_with_vectorization
    dsimp only
    cases pf
    · exact ⟨rfl, rfl⟩
    · cases henc : be (normalizeInput (s0.heap.getD imgId dfltImg))
      · exact ⟨rfl, rfl⟩
      · dsimp only
        unfold afterEncode
        dsimp only
        cases bw
        · exact ⟨rfl, rfl⟩
        · exact ⟨rfl, rfl⟩

/-- Counterexample to C1 as stated: with an environment in which the
write of the BMP bytes into the just-created temp file raises, the call
aborts with an error, yet the BMP temp file created during the
invocation is still on the (initially empty) filesystem afterwards,
because the file is created and written on svgutils.py lines 73-75,
before the try-finally block begins. -/
theorem c1_counterexample_bmp_leak :
    fsHas st0.fs "in.bmp" = false ∧
    (upscale_with_vectorization envWriteFail st0 0 none 1 none none).1 =
      Except.error PipelineError.bmpWriteFailed ∧
    fsHas (upscale_with_vectorization envWriteFail st0 0 none 1 none none).2.fs "in.bmp" = true :=
  ⟨rfl, rfl, rfl⟩

/-- Claim C1 amended: provided the write of the BMP data into the input
temp file succeeds and the os.remove calls succeed, neither the BMP
input temp file nor the SVG output temp file exists on the filesystem
after the call returns, on every path, success or failure. -/
theorem c1_amended_no_temp_files (e : Env) (s0 : St) (imgId : Nat)
    (potrace_args : Option (List String)) (scale : Rat) (ow oh : Option Nat)
    (hW : e.bmpWriteOk = true)
    (hR : ∀ p, e.removeOk p = true)
    (hB : fsHas s0.fs e.bmpName = false)
    (hS : fsHas s0.fs e.svgName = false) :
    fsHas (upscale_with_vectorization e s0 imgId potrace_args scale ow oh).2.fs e.bmpName = false ∧
    fsHas (upscale_with_vectorization e s0 imgId potrace_args scale ow oh).2.fs e.svgName = false := by
  unfold upscale_with_vectorization
  cases hpf : e.potraceFound
  · exact ⟨hB, hS⟩
  · simp only [eq_self_iff_true, if_true]
    cases henc : e.bmpEncode (normalizeInput (s0.heap.getD imgId dfltImg))
    · exact ⟨hB, hS⟩
    · dsimp only
      unfold afterEncode
      simp only [hW, if_true]
      unfold tryWithCleanup
      dsimp only
      exact cleanupTemps_clears e e.bmpName e.svgName _ (hR e.bmpName) (hR e.svgName)

/-- Witness for the amended C1 at the concrete success environment. -/
theorem c1_amended_no_temp_files_witness :
    envOk.bmpWriteOk = true ∧ (∀ p, envOk.removeOk p = true) ∧
    fsHas st0.fs envOk.bmpName = false ∧ fsHas st0.fs envOk.svgName = false ∧
    fsHas (upscale_with_vectorization envOk st0 0 none 1 none none).2.fs envOk.bmpName = false ∧
    fsHas (upscale_with_vectorization envOk st0 0 none 1 none none).2.fs envOk.svgName = false := by
  refine ⟨rfl, fun p => rfl, rfl, rfl, ?_, ?_⟩
  · exact (c1_amended_no_temp_files envOk st0 0 none 1 none none rfl (fun p => rfl) rfl rfl).1
  · exact (c1_amended_no_temp_files envOk st0 0 none 1 none none rfl (fun p => rfl) rfl rfl).2

/-- Modelled from the spec (section 3, RasterizeRequest) for comparison
with the code: a rasterize request carries exactly one sizing mode,
either the scale multiplier or the explicit pixel pair, never both, so a
request carrying explicit dimensions leaves the scale at its no-op
default of 1. -/
def specExactlyOneSizing (c : RasterizeCall) : Prop :=
  (c.output_width = none ∧ c.output_height = none) ∨ c.scale = 1

/-- Counterexample to C8 as stated: one concrete invocation records a
renderer call carrying both a scale multiplier of 2 and an explicit
pixel pair, which the exactly-one-sizing-mode requirement forbids; the
code enforces no mutual exclusion between the two sizing modes and
always forwards all three sizing arguments. -/
theorem c8_counterexample_both_modes :
    (upscale_with_vectorization envOk st0 0 none 2 (some 100) (some 50)).2.svg2pngCalls =
      [{ scale := 2, output_width := some 100, output_height := some 50 }] ∧
    ¬ specExactlyOneSizing { scale := 2, output_width := some 100, output_height := some 50 } := by
  constructor
  · rfl
  · unfold specExactlyOneSizing
    decide

/-- Claim C8 amended: every invocation that reaches the rasterize stage
records exactly one renderer call, carrying the scale and the optional
explicit dimensions exactly as the caller supplied them, with no mutual
exclusion enforced between the two sizing modes; the declared defaults
of the Python signature are scale 1 and no explicit dimensions. -/
theorem c8_amended_sizing_passed_through (e : Env) (s0 : St) (imgId : Nat)
    (potrace_args : Option (List String)) (scale : Rat) (ow oh : Option Nat)
    (bmp_data svg_data : Bytes)
    (hFound : e.potraceFound = true)
    (hEnc : e.bmpEncode (normalizeInput (s0.heap.getD imgId dfltImg)) = some bmp_data)
    (hW : e.bmpWriteOk = true)
    (hrc : e.potraceCode (mkCommand e.bmpName e.svgName potrace_args)
      (fsWrite (fsWrite s0.fs e.bmpName bmp_data) e.svgName []) = 0)
    (hread : fsRead (e.potraceFS (mkCommand e.bmpName e.svgName potrace_args)
        (fsWrite (fsWrite s0.fs e.bmpName bmp_data) e.svgName []))
      e.svgName = some svg_data) :
    (upscale_with_vectorization e s0 imgId potrace_args scale ow oh).2.svg2pngCalls =
      s0.svg2pngCalls ++ [{ scale := scale, output_width := ow, output_height := oh }] ∧
    defaultScale = 1 ∧ defaultOutputWidth = none ∧ defaultOutputHeight = none := by
  refine ⟨?_, rfl, rfl, rfl⟩
  unfold upscale_with_vectorization
  simp only [hFound, hEnc, if_true]
  unfold afterEncode
  simp only [hW, if_true]
  unfold tryWithCleanup
  dsimp only
  unfold tryBody
  dsimp only
  rw [hrc]
  simp only [eq_self_iff_true, if_true]
  rw [hread]
  dsimp only
  split
  · rfl
  · split
    · rfl
    · rfl

/-- Witness for the amended C8: the concrete success environment called
with the declared defaults records the renderer call with scale 1 and no
explicit dimensions. -/
theorem c8_amended_sizing_passed_through_witness :
    envOk.potraceFound = true ∧
    envOk.bmpEncode (normalizeInput (st0.heap.getD 0 dfltImg)) = some [7] ∧
    envOk.bmpWriteOk = true ∧
    envOk.potraceCode (mkCommand envOk.bmpName envOk.svgName none)
      (fsWrite (fsWrite st0.fs envOk.bmpName [7]) envOk.svgName []) = 0 ∧
    fsRead (envOk.potraceFS (mkCommand envOk.bmpName envOk.svgName none)
        (fsWrite (fsWrite st0.fs envOk.bmpName [7]) envOk.svgName []))
      envOk.svgName = some [] ∧
    (upscale_with_vectorization envOk st0 0 none defaultScale defaultOutputWidth
        defaultOutputHeight).2.svg2pngCalls =
      [{ scale := 1, output_width := none, output_height := none }] := by
  refine ⟨rfl, rfl, rfl, rfl, rfl, ?_⟩
  exact (c8_amended_sizing_passed_through envOk st0 0 none defaultScale defaultOutputWidth
    defaultOutputHeight [7] [] rfl rfl rfl rfl rfl).1

theorem process_wrap_events (p : ChildProcess)
    (handler : Option (List String → Bool → List (Sink × String))) :
    (process_wrap p handler).events =
      [ThreadEvent.start true, ThreadEvent.start false,
       ThreadEvent.join true, ThreadEvent.join false, ThreadEvent.waitReturn] := rfl

/-- Claim C2: process_wrap starts two independent reader threads, one
per output stream, and both are started before either is joined, so the
two readers are live concurrently for the lifetime of the child; both
are joined before the final wait produces the reported exit code; and
with the default handler each reader consumes its entire stream up to
end-of-input, forwarding stdout lines to stdout and stderr lines to
stderr in order. -/
theorem c2_process_wrap_drains_and_joins (p : ChildProcess)
    (handler : Option (List String → Bool → List (Sink × String)))
    (hdefault : handler = none) :
    ((process_wrap p handler).events.indexOf (ThreadEvent.start true) <
       (process_wrap p handler).events.indexOf (ThreadEvent.join true) ∧
     (process_wrap p handler).events.indexOf (ThreadEvent.start false) <
       (process_wrap p handler).events.indexOf (ThreadEvent.join true) ∧
     (process_wrap p handler).events.indexOf (ThreadEvent.start true) <
       (process_wrap p handler).events.indexOf (ThreadEvent.join false) ∧
     (process_wrap p handler).events.indexOf (ThreadEvent.start false) <
       (process_wrap p handler).events.indexOf (ThreadEvent.join false)) ∧
    ((process_wrap p handler).events.indexOf (ThreadEvent.join true) <
       (process_wrap p handler).events.indexOf ThreadEvent.waitReturn ∧
     (process_wrap p handler).events.indexOf (ThreadEvent.join false) <
       (process_wrap p handler).events.indexOf ThreadEvent.waitReturn) ∧
    (process_wrap p handler).exitCode = p.exitCode ∧
    (process_wrap p handler).stdoutEmitted = p.stdoutLines.map (fun m => (Sink.stdout, m)) ∧
    (process_wrap p handler).stderrEmitted = p.stderrLines.map (fun m => (Sink.stderr, m)) := by
  subst hdefault
  refine ⟨⟨?_, ?_, ?_, ?_⟩, ⟨?_, ?_⟩, rfl, rfl, rfl⟩ <;> rw [process_wrap_events] <;> decide

/-- Concrete child process for the C2 witness. -/
def childSample : ChildProcess :=
  { stdoutLines := ["out line"], stderrLines := ["err one", "err two"], exitCode := 3 }

/-- Witness for C2 at a concrete child process with the default handler. -/
theorem c2_process_wrap_drains_and_joins_witness :
    (none : Option (List String → Bool → List (Sink × String))) = none ∧
    (process_wrap childSample none).exitCode = childSample.exitCode ∧
    (process_wrap childSample none).stdoutEmitted =
      childSample.stdoutLines.map (fun m => (Sink.stdout, m)) ∧
    (process_wrap childSample none).stderrEmitted =
      childSample.stderrLines.map (fun m => (Sink.stderr, m)) :=
  ⟨rfl, (c2_process_wrap_drains_and_joins childSample none rfl).2.2.1,
    (c2_process_wrap_drains_and_joins childSample none rfl).2.2.2.1,
    (c2_process_wrap_drains_and_joins childSample none rfl).2.2.2.2⟩
